import Mathlib

/-!
Shallow embedding of `src/bot.js` (LetMeWatchThis Discord bot) and proofs
about its result-reconciliation pipeline: string truncation, link
extraction, URL normalization, relevance filtering and capping, and the
watch-command handler's control flow.

JS strings are modelled as `List Char` (one entry per UTF-16 unit of the
ASCII inputs considered here); JS semantics such as `slice` with a negative
end index, template-literal interpolation of `undefined`, and string
truthiness are modelled explicitly where the source relies on them.
-/

set_option maxRecDepth 10000

abbrev JSStr := List Char

/-- JS `String.prototype.toLowerCase`, applied character-wise
(`bot.js` lines 101-102 use `.toLowerCase()` on titles). -/
def jsToLower (s : JSStr) : JSStr := s.map Char.toLower

/-- JS `hay.includes(needle)`: substring containment test, `true` when
`needle` occurs contiguously inside `hay` (the empty needle always matches). -/
def jsIncludes : JSStr → JSStr → Bool
  | [], needle => needle.isEmpty
  | c :: t, needle => needle.isPrefixOf (c :: t) || jsIncludes t needle

/-- JS `s.slice(0, e)` for an `Int` end index: a negative `e` counts from the
end of the string (clamped at 0), a non-negative `e` is clamped at the length. -/
def jsSliceTo (s : JSStr) (e : Int) : JSStr :=
  if e < 0 then s.take ((s.length : Int) + e).toNat else s.take e.toNat

/-- `bot.js` line 15:
`str.length > maxLen ? str.slice(0, maxLen - 3) + chr46 chr46 chr46 : str`. -/
def truncateString (str : JSStr) (maxLen : Int) : JSStr :=
  if maxLen < (str.length : Int) then jsSliceTo str (maxLen - 3) ++ ("...".toList) else str

/-- JS `String.prototype.trim`: strip leading and trailing whitespace. -/
def jsTrim (s : JSStr) : JSStr :=
  ((s.dropWhile Char.isWhitespace).reverse.dropWhile Char.isWhitespace).reverse

/-- Helper for `collapseWs`: the flag records whether the previous character
was part of a whitespace run already replaced. -/
def collapseWsAux (rep : Char) : Bool → JSStr → JSStr
  | _, [] => []
  | inRun, c :: rest =>
    if c.isWhitespace then
      (if inRun then [] else [rep]) ++ collapseWsAux rep true rest
    else c :: collapseWsAux rep false rest

/-- JS `s.replace(/\s+/g, rep)` for a single replacement character `rep`:
every maximal run of whitespace becomes one copy of `rep`
(`bot.js` lines 69 and 85). -/
def collapseWs (rep : Char) (s : JSStr) : JSStr := collapseWsAux rep false s

theorem truncateString_eq_of_le {s : JSStr} (h : s.length ≤ 100) :
    truncateString s 100 = s := by
  unfold truncateString
  rw [if_neg]
  exact_mod_cast Nat.not_lt.mpr h

theorem truncateString_spec_gt {s : JSStr} (h : 100 < s.length) :
    truncateString s 100 = s.take 97 ++ ("...".toList) ∧
      (truncateString s 100).length = 100 := by
  have hcond : (100 : Int) < (s.length : Int) := by exact_mod_cast h
  have h97 : ((100 : Int) - 3).toNat = 97 := by decide
  have h1 : truncateString s 100 = s.take 97 ++ ("...".toList) := by
    unfold truncateString jsSliceTo
    rw [if_pos hcond, if_neg (by norm_num), h97]
  refine ⟨h1, ?_⟩
  rw [h1]
  simp [List.length_take]
  omega

/-- Claim C5: `truncate(s, 100)` returns `s` unchanged when `len(s) ≤ 100`,
and otherwise returns a string of length exactly 100 ending in three dots. -/
theorem claim5_truncate_100 (s : JSStr) :
    (s.length ≤ 100 → truncateString s 100 = s) ∧
    (100 < s.length → (truncateString s 100).length = 100 ∧
      ∃ p, truncateString s 100 = p ++ ("...".toList)) :=
  ⟨fun h => truncateString_eq_of_le h,
   fun h => ⟨(truncateString_spec_gt h).2, ⟨s.take 97, (truncateString_spec_gt h).1⟩⟩⟩

/-- Witness for C5: evaluates both branches at concrete strings. -/
theorem claim5_witness :
    truncateString ("ab".toList) 100 = ("ab".toList) ∧
    ((truncateString (List.replicate 101 'a') 100).length = 100 ∧
      ∃ p, truncateString (List.replicate 101 'a') 100 = p ++ ("...".toList)) :=
  ⟨(claim5_truncate_100 ("ab".toList)).1 (by decide),
   (claim5_truncate_100 (List.replicate 101 'a')).2 (by simp)⟩

/-- Counterexample to C6 as stated: at `maxLen = 2` the negative end index of
the JS slice keeps all but the last character, so `truncate("abc", 2)` is
`"ab..."`, 5 characters, not 3 or fewer. -/
theorem claim6_counterexample :
    ¬ ((truncateString ("abc".toList) 2).length ≤ 3) := by decide

/-- Claim C6 (amended): at `maxLen = 3` exactly, the result has at most 3
characters; for `maxLen < 3` the function still returns normally (JS `slice`
clamps the negative end index) but the result can exceed 3 characters. -/
theorem claim6_truncate_at_3 (s : JSStr) : (truncateString s 3).length ≤ 3 := by
  by_cases h : (3 : Int) < (s.length : Int)
  · have h1 : truncateString s 3 = ("...".toList) := by
      unfold truncateString jsSliceTo
      rw [if_pos h, if_neg (by norm_num)]
      norm_num
    rw [h1]
    decide
  · unfold truncateString
    rw [if_neg h]
    exact_mod_cast Int.not_lt.mp h

/-- Claim C10: truncation at 100 is idempotent, since its output always has
length at most 100 and is then returned unchanged by a second application. -/
theorem claim10_truncate_idempotent (s : JSStr) :
    truncateString (truncateString s 100) 100 = truncateString s 100 := by
  rcases Nat.lt_or_ge 100 s.length with h | h
  · exact truncateString_eq_of_le (le_of_eq (truncateString_spec_gt h).2)
  · rw [truncateString_eq_of_le h]
    exact truncateString_eq_of_le h

/-- A scraped candidate link as pushed by the loops at `bot.js` lines 80 and 96. -/
structure Candidate where
  title : JSStr
  link : JSStr
deriving DecidableEq

/-- The filter predicate at `bot.js` lines 101-102:
`link.title.toLowerCase().includes(mediaTitle.toLowerCase()) ||
 mediaData.Title.toLowerCase().includes(link.title.toLowerCase())`. -/
def isRelevant (queryTitle canonicalTitle : JSStr) (link : Candidate) : Bool :=
  jsIncludes (jsToLower link.title) (jsToLower queryTitle) ||
    jsIncludes (jsToLower canonicalTitle) (jsToLower link.title)

/-- The `.filter(...)` stage of `bot.js` lines 101-102. -/
def relevantLinks (queryTitle canonicalTitle : JSStr) (links : List Candidate) :
    List Candidate :=
  links.filter (isRelevant queryTitle canonicalTitle)

/-- The full `.filter(...).slice(0, 5)` pipeline of `bot.js` lines 101-102. -/
def rankLinks (queryTitle canonicalTitle : JSStr) (links : List Candidate) :
    List Candidate :=
  (relevantLinks queryTitle canonicalTitle links).take 5

theorem jsIncludes_iff (hay needle : JSStr) :
    jsIncludes hay needle = true ↔ ∃ l r, hay = l ++ needle ++ r := by
  induction hay with
  | nil =>
    simp only [jsIncludes, List.isEmpty_eq_true]
    constructor
    · rintro rfl
      exact ⟨[], [], rfl⟩
    · rintro ⟨l, r, hl⟩
      rcases List.append_eq_nil.mp hl.symm with ⟨h1, h2⟩
      exact (List.append_eq_nil.mp h1).2
  | cons c t ih =>
    simp only [jsIncludes, Bool.or_eq_true, List.isPrefixOf_iff_prefix, ih]
    constructor
    · rintro (⟨suf, hsuf⟩ | ⟨l, r, hl⟩)
      · exact ⟨[], suf, by simpa using hsuf.symm⟩
      · exact ⟨c :: l, r, by simp [hl]⟩
    · rintro ⟨l, r, hl⟩
      cases l with
      | nil =>
        exact Or.inl ⟨r, by simpa using hl.symm⟩
      | cons a l =>
        rcases List.cons_eq_cons.mp (by simpa using hl) with ⟨rfl, hrest⟩
        exact Or.inr ⟨l, r, by rw [List.append_assoc]; exact hrest⟩

theorem jsIncludes_self (s : JSStr) : jsIncludes s s = true :=
  (jsIncludes_iff s s).mpr ⟨[], [], by simp⟩

/-- Claim C1: a candidate is kept by the relevance filter iff its case-folded
label contains the case-folded query title as a substring, or the case-folded
canonical title contains the case-folded label as a substring; in particular a
label equal to the query title, or to the canonical title, is always relevant. -/
theorem claim1_relevance_filter_iff (links : List Candidate)
    (queryTitle canonicalTitle : JSStr) (c : Candidate) :
    (c ∈ relevantLinks queryTitle canonicalTitle links ↔
      c ∈ links ∧
        ((∃ l r, jsToLower c.title = l ++ jsToLower queryTitle ++ r) ∨
         (∃ l r, jsToLower canonicalTitle = l ++ jsToLower c.title ++ r))) ∧
    (c.title = queryTitle → isRelevant queryTitle canonicalTitle c = true) ∧
    (c.title = canonicalTitle → isRelevant queryTitle canonicalTitle c = true) := by
  refine ⟨?_, ?_, ?_⟩
  · simp [relevantLinks, List.mem_filter, isRelevant, Bool.or_eq_true, jsIncludes_iff]
  · intro h
    simp [isRelevant, h, jsIncludes_self]
  · intro h
    simp [isRelevant, h, jsIncludes_self]

/-- Witness for C1: a label equal to the query title passes the filter
predicate on a concrete input. -/
theorem claim1_witness :
    isRelevant ("Dune".toList) ("Dune Part Two".toList)
      { title := ("Dune".toList), link := ("/d".toList) } = true :=
  (claim1_relevance_filter_iff [] ("Dune".toList) ("Dune Part Two".toList)
    { title := ("Dune".toList), link := ("/d".toList) }).2.1 rfl

/-- Claim C2: the ranked list (filter then cap) never has more than 5 entries,
whatever the input list. -/
theorem claim2_rank_cap (links : List Candidate) (queryTitle canonicalTitle : JSStr) :
    (rankLinks queryTitle canonicalTitle links).length ≤ 5 := by
  unfold rankLinks
  rw [List.length_take]
  exact Nat.min_le_left _ _

/-- Claim C3: the ranked list is a sublist (order-preserving subsequence) of
the input candidate list; nothing is re-sorted. -/
theorem claim3_rank_sublist (links : List Candidate) (queryTitle canonicalTitle : JSStr) :
    List.Sublist (rankLinks queryTitle canonicalTitle links) links := by
  unfold rankLinks relevantLinks
  exact (List.take_sublist _ _).trans (List.filter_sublist _)

/-- What the source-specific selector yields at one scan position: the
anchor's `href` attribute (`none` when absent, as cheerio's `attr` returns
`undefined`) and its text content. -/
structure ScanItem where
  href : Option JSStr
  text : JSStr

/-- JS template-literal interpolation of a value that may be `undefined`:
an absent attribute stringifies to the literal text `undefined`
(`bot.js` lines 77 and 93). -/
def jsInterpOpt : Option JSStr → JSStr
  | none => ("undefined".toList)
  | some s => s

/-- One iteration of the extraction loops at `bot.js` lines 75-82 and 91-98:
prefix the base URL onto the (possibly undefined) href, trim the text, and
push the candidate when both strings are truthy (non-empty). -/
def scrapeCandidate (base : JSStr) (item : ScanItem) : Option Candidate :=
  let mediaLink := base ++ jsInterpOpt item.href
  let mediaTitle := jsTrim item.text
  if !mediaLink.isEmpty && !mediaTitle.isEmpty then
    some { title := truncateString mediaTitle 100, link := mediaLink }
  else none

def primewireBase : JSStr := ("https://primewire.tf".toList)

def fmoviesBase : JSStr := ("https://en.fmoviesz-to.com".toList)

/-- The Primewire extraction loop, `bot.js` lines 74-82: scan positions 2..21. -/
def primewireLinks (page : Nat → ScanItem) : List Candidate :=
  ((List.range' 2 20).map page).filterMap (scrapeCandidate primewireBase)

/-- The Fmovies extraction loop, `bot.js` lines 90-98: scan positions 1..20. -/
def fmoviesLinks (page : Nat → ScanItem) : List Candidate :=
  ((List.range' 1 20).map page).filterMap (scrapeCandidate fmoviesBase)

/-- A scan position with no anchor at all: no href, empty text. -/
def emptyScanItem : ScanItem := { href := none, text := [] }

/-- A page whose position 2 has an anchor with text but no href attribute. -/
def missingHrefPage : Nat → ScanItem := fun i =>
  if i = 2 then { href := none, text := ("Inception".toList) } else emptyScanItem

/-- Claim C4 fails on the code: the truthiness check at line 79 tests the
already-prefixed URL, which is never empty, so a position whose href is
absent is NOT skipped — it yields the malformed candidate URL
`https://primewire.tfundefined` whenever its label is non-empty. -/
theorem claim4_missing_href_kept :
    primewireLinks missingHrefPage =
      [{ title := ("Inception".toList),
         link := ("https://primewire.tfundefined".toList) }] := by decide

/-- A raw scraped label of 101 identical characters. -/
def longTitle : JSStr := List.replicate 101 'a'

/-- A page whose position 2 anchor has the 101-character label and a valid href. -/
def longTitlePage : Nat → ScanItem := fun i =>
  if i = 2 then { href := some ("/movie/1".toList), text := longTitle } else emptyScanItem

/-- Claim C9: the relevance check runs on the truncated label. The raw label
(101 characters, exactly the canonical title, and relevant as-is under the
filter predicate) is stored truncated, and the truncated form passes neither
containment direction, so the ranked list comes out empty. -/
theorem claim9_filter_sees_truncated_label :
    100 < longTitle.length ∧
    jsTrim longTitle = longTitle ∧
    isRelevant longTitle longTitle
      { title := longTitle, link := primewireBase ++ ("/movie/1".toList) } = true ∧
    rankLinks longTitle longTitle (primewireLinks longTitlePage) = [] := by decide

/-- The characters JS `encodeURIComponent` leaves unescaped:
ASCII letters, digits, and `- _ . ! ~ * ' ( )`. -/
def uriUnreserved (c : Char) : Bool :=
  c.isAlpha || c.isDigit ||
    (c == '-' || c == '_' || c == '.' || c == '!' || c == '~' ||
     c == '*' || c == '\'' || c == '(' || c == ')')

/-- Uppercase hexadecimal digit for a value below 16. -/
def hexDigit (n : Nat) : Char :=
  if n < 10 then Char.ofNat (48 + n) else Char.ofNat (55 + n)

/-- UTF-8 byte sequence of one code point, as `encodeURIComponent` encodes it. -/
def utf8Bytes (c : Char) : List Nat :=
  if c.toNat < 128 then [c.toNat]
  else if c.toNat < 2048 then
    [192 + c.toNat / 64, 128 + c.toNat % 64]
  else if c.toNat < 65536 then
    [224 + c.toNat / 4096, 128 + c.toNat / 64 % 64, 128 + c.toNat % 64]
  else
    [240 + c.toNat / 262144, 128 + c.toNat / 4096 % 64,
     128 + c.toNat / 64 % 64, 128 + c.toNat % 64]

/-- Percent-escape of one byte: `%` followed by two uppercase hex digits. -/
def percentByte (n : Nat) : JSStr :=
  '%' :: hexDigit (n / 16) :: hexDigit (n % 16) :: []

/-- JS `encodeURIComponent`: unreserved characters pass through, every other
character becomes the percent-escapes of its UTF-8 bytes. -/
def encodeURIComponent (s : JSStr) : JSStr :=
  s.flatMap fun c => if uriUnreserved c then [c] else (utf8Bytes c).flatMap percentByte

/-- The `.replace(/([()])/g, encodeURIComponent)` step of `bot.js` line 85:
each parenthesis character is replaced by `encodeURIComponent` of itself. -/
def parenReplace (s : JSStr) : JSStr :=
  s.flatMap fun c => if c == '(' || c == ')' then encodeURIComponent [c] else [c]

/-- The full keyword expression of `bot.js` line 85:
`encodeURIComponent(mediaTitle.replace(/\s+/g, '+').replace(/([()])/g, encodeURIComponent))`. -/
def fmoviesKeyword (mediaTitle : JSStr) : JSStr :=
  encodeURIComponent (parenReplace (collapseWs '+' mediaTitle))

/-- The Primewire search URL of `bot.js` line 69. -/
def primewireUrl (mediaTitle : JSStr) : JSStr :=
  ("https://primewire.tf/search/".toList) ++ encodeURIComponent (collapseWs '-' mediaTitle)

/-- The Fmovies search URL of `bot.js` line 85. -/
def fmoviesUrl (mediaTitle : JSStr) : JSStr :=
  ("https://en.fmoviesz-to.com/filter?keyword=".toList) ++ fmoviesKeyword mediaTitle

/-- Claim C8 fails on the code: `encodeURIComponent` treats `(` and `)` as
unreserved, so replacing a parenthesis by `encodeURIComponent` of itself is a
no-op and the outer encoding keeps parentheses literal — while the `+`
inserted for whitespace is itself percent-encoded to `%2B`. -/
theorem claim8_paren_not_encoded :
    fmoviesKeyword ("Oldboy (2003)".toList) = ("Oldboy%2B(2003)".toList) ∧
    '(' ∈ fmoviesKeyword ("Oldboy (2003)".toList) := by decide

/-- One entry of the OMDB `Ratings` array. -/
structure OmdbRating where
  Source : JSStr
  Value : JSStr
deriving DecidableEq

/-- The OMDB response record, with the fields `bot.js` reads. -/
structure OmdbData where
  Response : JSStr
  Title : JSStr
  Year : JSStr
  imdbRating : JSStr
  Ratings : List OmdbRating
  Plot : JSStr
  Poster : JSStr
deriving DecidableEq

/-- One `addFields` entry of the Discord embed. -/
structure EmbedField where
  name : JSStr
  value : JSStr
deriving DecidableEq

/-- The embed built at `bot.js` lines 105-122. -/
structure EmbedData where
  title : JSStr
  color : Nat
  description : JSStr
  thumbnail : JSStr
  fields : List EmbedField
deriving DecidableEq

/-- `mediaData.Ratings.find(rating => rating.Source === rtName)?.Value || na`
(`bot.js` line 108): an absent entry or a falsy (empty) value yields `N/A`. -/
def rottenTomatoesValue (ratings : List OmdbRating) : JSStr :=
  match ratings.find? (fun r => r.Source == ("Rotten Tomatoes".toList)) with
  | some r => if r.Value.isEmpty then ("N/A".toList) else r.Value
  | none => ("N/A".toList)

/-- The embed description template of `bot.js` line 108. -/
def embedDescription (m : OmdbData) : JSStr :=
  ("Release Year: ".toList) ++ m.Year ++
    ("\nIMDB Rating: ".toList) ++ m.imdbRating ++
    ("\nRotten Tomatoes Rating: ".toList) ++ rottenTomatoesValue m.Ratings ++
    ("\n\n".toList) ++ m.Plot

/-- One markdown link line of the results field (`bot.js` lines 113 and 119). -/
def linkLine (c : Candidate) : JSStr :=
  ("[".toList) ++ c.title ++ ("](".toList) ++ c.link ++ (")".toList)

/-- The value of a results field: the newline-joined link lines, or the
placeholder when the filtered list is empty (`bot.js` lines 112-122). -/
def linksFieldValue (links : List Candidate) : JSStr :=
  if links.isEmpty then ("No results found.".toList)
  else List.intercalate ("\n".toList) (links.map linkLine)

/-- The reply sent back to the interaction: a plain text message or an embed. -/
inductive ReplyPayload where
  | message (s : JSStr)
  | embed (e : EmbedData)
deriving DecidableEq

/-- The observable outcome of one watch-command invocation: the reply and the
list of scrape URLs the handler requested. -/
structure WatchResult where
  reply : ReplyPayload
  scrapeRequests : List JSStr
deriving DecidableEq

/-- The watch branch of the `interactionCreate` handler (`bot.js` lines
51-124), with the network modelled as oracles: `omdb` is the already-parsed
metadata response, and the page functions give the scan item each position
selector would yield on the two scraped pages. -/
def watchHandler (mediaTitle : JSStr) (omdb : OmdbData)
    (primewirePage fmoviesPage : Nat → ScanItem) : WatchResult :=
  if mediaTitle = [] then
    { reply := ReplyPayload.message ("Please provide a movie or TV show title.".toList),
      scrapeRequests := [] }
  else if omdb.Response = ("False".toList) then
    { reply := ReplyPayload.message ("Media not found.".toList), scrapeRequests := [] }
  else
    let filteredPrimewireLinks :=
      rankLinks mediaTitle omdb.Title (primewireLinks primewirePage)
    let filteredFmoviesLinks :=
      rankLinks mediaTitle omdb.Title (fmoviesLinks fmoviesPage)
    { reply := ReplyPayload.embed
        { title := omdb.Title
          color := 0x0099FF
          description := embedDescription omdb
          thumbnail := omdb.Poster
          fields :=
            [{ name := ("Top Primewire Results:".toList),
               value := linksFieldValue filteredPrimewireLinks },
             { name := ("Top Fmovies Results:".toList),
               value := linksFieldValue filteredFmoviesLinks }] }
      scrapeRequests := [primewireUrl mediaTitle, fmoviesUrl mediaTitle] }

/-- Claim C7: when the metadata lookup reports no match, the handler replies
with exactly the not-found message, issues no scrape requests, and builds no
embed (hence performs no ranking). -/
theorem claim7_not_found_short_circuit (mediaTitle : JSStr) (omdb : OmdbData)
    (primewirePage fmoviesPage : Nat → ScanItem)
    (hne : mediaTitle ≠ [])
    (hresp : omdb.Response = ("False".toList)) :
    watchHandler mediaTitle omdb primewirePage fmoviesPage =
      { reply := ReplyPayload.message ("Media not found.".toList),
        scrapeRequests := [] } := by
  unfold watchHandler
  rw [if_neg hne, if_pos hresp]

/-- Witness for C7: the not-found reply on a concrete failed lookup. -/
theorem claim7_witness :
    watchHandler ("Zzzznotreal999".toList)
      { Response := ("False".toList), Title := [], Year := [],
        imdbRating := [], Ratings := [], Plot := [], Poster := [] }
      (fun _ => emptyScanItem) (fun _ => emptyScanItem) =
      { reply := ReplyPayload.message ("Media not found.".toList),
        scrapeRequests := [] } :=
  claim7_not_found_short_circuit _ _ _ _ (by decide) rfl
